import Mathlib

/-!
Verification of the core simulation of the "Ruins of Arkan" game
(entity-component store, AABB physics, collision resolution,
pursuit AI, scene collision reactions, and the engine tick clock).

The definitions below are a shallow embedding of the TypeScript
source.  JavaScript numbers are modelled as exact rationals where the
code only adds, multiplies, divides and compares, and as real numbers
where the code takes square roots (velocity clamping and direction
normalisation).  Collision callbacks are modelled as recorded
invocation events: the repository never attaches a callback that
mutates state (the entity factories attach none at all), so an event
log captures exactly what the pass does with them.  The player death
callback is modelled by the game state it sets when fired; the only
death callback the code ever constructs sets the GAME_OVER state.
-/

/-- Game states of the main scene (mainScene.ts, enum GameState). -/
inductive GameState where
  | PLAYING
  | PAUSED
  | GAME_OVER
  | VICTORY
  | AWAITING_MUSIC
deriving DecidableEq, Repr

/-- 2D vector (entity.ts, interface Vector2). -/
structure Vec2 (α : Type) where
  x : α
  y : α
deriving DecidableEq, Repr

/-- Transform component: position, rotation, scale (entity.ts). -/
structure TransformComponent (α : Type) where
  position : Vec2 α
  rotation : α
  scale : Vec2 α
deriving DecidableEq, Repr

/-- Physics component: velocity, acceleration, mass, friction (entity.ts). -/
structure PhysicsComponent (α : Type) where
  velocity : Vec2 α
  acceleration : Vec2 α
  mass : α
  friction : α
deriving DecidableEq, Repr

/-- Sprite component: footprint width/height and colour tag (entity.ts). -/
structure SpriteComponent (α : Type) where
  width : α
  height : α
  color : String
deriving DecidableEq, Repr

/-- Collider component (entity.ts).  The optional onCollision callback is
modelled by a flag saying whether one is attached; its invocation is
recorded in the event log of the collision pass. -/
structure ColliderComponent (α : Type) where
  width : α
  height : α
  isTrigger : Bool
  onCollision : Bool
deriving DecidableEq, Repr

/-- Health component (entity.ts).  The optional onDeath callback is
modelled by the game state it sets when fired (the only death callback
the code ever constructs sets GAME_OVER); none means no callback. -/
structure HealthComponent (α : Type) where
  current : α
  max : α
  onDeath : Option GameState
deriving DecidableEq, Repr

/-- An entity: an id plus at most one component per component kind
(entity.ts keeps them in a map keyed by the component type name). -/
structure Entity (α : Type) where
  id : String
  active : Bool
  transform : Option (TransformComponent α)
  physics : Option (PhysicsComponent α)
  sprite : Option (SpriteComponent α)
  collider : Option (ColliderComponent α)
  health : Option (HealthComponent α)
deriving DecidableEq, Repr

instance : Inhabited (Entity ℚ) :=
  ⟨{ id := "", active := false, transform := none, physics := none,
     sprite := none, collider := none, health := none }⟩

namespace config

/-- config.canvas.width (config.ts). -/
def canvasWidth : ℝ := 640

/-- config.canvas.height (config.ts). -/
def canvasHeight : ℝ := 360

/-- config.physics.maxVelocity (config.ts). -/
def maxVelocity : ℝ := 500

/-- config.physics.friction (config.ts). -/
def friction : ℚ := 0.8

/-- config.enemy.speed (config.ts). -/
def enemySpeed : ℝ := 100

/-- config.enemy.damage (config.ts). -/
def enemyDamage : ℚ := 10

/-- config.enemy.color (config.ts). -/
def enemyColor : String := "#ff6b6b"

/-- config.pickup.healAmount (config.ts). -/
def pickupHealAmount : ℚ := 20

/-- config.pickup.color (config.ts). -/
def pickupColor : String := "#4ecdc4"

/-- config.player.color (config.ts). -/
def playerColor : String := "#4ecca3"

/-- config.player.maxHealth (config.ts). -/
def playerMaxHealth : ℚ := 100

/-- config.player.size (config.ts). -/
def playerSize : ℚ := 32

/-- config.enemy.size (config.ts). -/
def enemySize : ℚ := 32

end config

namespace PhysicsSystem

/-- PhysicsSystem.isColliding (physics system source, lines 111-141):
AABB overlap with strict inequalities; any missing transform or
collider makes it return false. -/
def isColliding (entityA entityB : Entity ℚ) : Bool :=
  match entityA.transform, entityB.transform,
        entityA.collider, entityB.collider with
  | some transformA, some transformB, some colliderA, some colliderB =>
      decide (transformA.position.x < transformB.position.x + colliderB.width ∧
        transformA.position.x + colliderA.width > transformB.position.x ∧
        transformA.position.y < transformB.position.y + colliderB.height ∧
        transformA.position.y + colliderA.height > transformB.position.y)
  | _, _, _, _ => false

/-- The X penetration depth computed by resolveCollision (lines 157-160). -/
def overlapXc (transformA transformB : TransformComponent ℚ)
    (colliderA colliderB : ColliderComponent ℚ) : ℚ :=
  min (transformA.position.x + colliderA.width - transformB.position.x)
      (transformB.position.x + colliderB.width - transformA.position.x)

/-- The Y penetration depth computed by resolveCollision (lines 162-165). -/
def overlapYc (transformA transformB : TransformComponent ℚ)
    (colliderA colliderB : ColliderComponent ℚ) : ℚ :=
  min (transformA.position.y + colliderA.height - transformB.position.y)
      (transformB.position.y + colliderB.height - transformA.position.y)

/-- Zero the x component of the velocity of an optional physics
component (resolveCollision lines 179-180). -/
def stopVelX (physics : Option (PhysicsComponent ℚ)) :
    Option (PhysicsComponent ℚ) :=
  physics.map fun p => { p with velocity := ⟨0, p.velocity.y⟩ }

/-- Zero the y component of the velocity of an optional physics
component (resolveCollision lines 192-193). -/
def stopVelY (physics : Option (PhysicsComponent ℚ)) :
    Option (PhysicsComponent ℚ) :=
  physics.map fun p => { p with velocity := ⟨p.velocity.x, 0⟩ }

/-- Replace the position of an entity known to carry the given
transform (helper for the positional writes of resolveCollision). -/
def withPos (e : Entity ℚ) (t : TransformComponent ℚ) (pos : Vec2 ℚ) :
    Entity ℚ :=
  { e with transform := some { t with position := pos } }

/-- PhysicsSystem.resolveCollision (lines 146-195): push the pair apart
along the axis with the strictly smaller penetration depth (ties go to
the Y branch because the test is overlapX < overlapY), half the
correction to each entity, and zero both velocities along that axis.
Returns the updated pair; missing transform or collider on either side
leaves both entities untouched. -/
def resolveCollision (entityA entityB : Entity ℚ) : Entity ℚ × Entity ℚ :=
  match entityA.transform, entityB.transform,
        entityA.collider, entityB.collider with
  | some transformA, some transformB, some colliderA, some colliderB =>
      let overlapX := overlapXc transformA transformB colliderA colliderB
      let overlapY := overlapYc transformA transformB colliderA colliderB
      if overlapX < overlapY then
        let separationX := overlapX / 2
        let posA := transformA.position
        let posB := transformB.position
        let pair :=
          if posA.x < posB.x then
            (withPos entityA transformA ⟨posA.x - separationX, posA.y⟩,
             withPos entityB transformB ⟨posB.x + separationX, posB.y⟩)
          else
            (withPos entityA transformA ⟨posA.x + separationX, posA.y⟩,
             withPos entityB transformB ⟨posB.x - separationX, posB.y⟩)
        ({ pair.1 with physics := stopVelX entityA.physics },
         { pair.2 with physics := stopVelX entityB.physics })
      else
        let separationY := overlapY / 2
        let posA := transformA.position
        let posB := transformB.position
        let pair :=
          if posA.y < posB.y then
            (withPos entityA transformA ⟨posA.x, posA.y - separationY⟩,
             withPos entityB transformB ⟨posB.x, posB.y + separationY⟩)
          else
            (withPos entityA transformA ⟨posA.x, posA.y + separationY⟩,
             withPos entityB transformB ⟨posB.x, posB.y - separationY⟩)
        ({ pair.1 with physics := stopVelY entityA.physics },
         { pair.2 with physics := stopVelY entityB.physics })
  | _, _, _, _ => (entityA, entityB)

/-- The filter of checkCollisions (lines 78-80): active entities
carrying both a transform and a collider. -/
def collidable (e : Entity ℚ) : Bool :=
  e.active && e.transform.isSome && e.collider.isSome

/-- Indices of the collidable entities of the store, in store order
(the source collects object references; mutation happens through them,
which index addressing reproduces). -/
def collidableIdxs (es : List (Entity ℚ)) : List ℕ :=
  (List.range es.length).filter fun i => collidable (es.getD i default)

/-- All ordered pairs (i, j) with i before j, in the nested-loop order
of checkCollisions (lines 82-83). -/
def allPairs : List ℕ → List (ℕ × ℕ)
  | [] => []
  | i :: rest => rest.map (fun j => (i, j)) ++ allPairs rest

/-- The callback invocations performed for one colliding pair
(lines 92-97): each side that has an onCollision callback is invoked
with the other entity; an invocation is recorded as (owner id, other id). -/
def pairEvents (a b : Entity ℚ) : List (String × String) :=
  (if (a.collider.map ColliderComponent.onCollision).getD false
   then [(a.id, b.id)] else []) ++
  (if (b.collider.map ColliderComponent.onCollision).getD false
   then [(b.id, a.id)] else [])

/-- The JavaScript test !collider?.isTrigger of line 100: true when the
collider is missing or not a trigger. -/
def notTrigger (e : Entity ℚ) : Bool :=
  match e.collider with
  | some c => !c.isTrigger
  | none => true

/-- One iteration of the inner loop of checkCollisions (lines 84-103)
over the mutable store: test the pair at the two indices, record the
callback invocations on overlap, and resolve positionally when neither
side is a trigger. -/
def processPair (st : List (Entity ℚ) × List (String × String))
    (ij : ℕ × ℕ) : List (Entity ℚ) × List (String × String) :=
  let a := st.1.getD ij.1 default
  let b := st.1.getD ij.2 default
  if isColliding a b then
    let events := st.2 ++ pairEvents a b
    if notTrigger a && notTrigger b then
      let pair := resolveCollision a b
      ((st.1.set ij.1 pair.1).set ij.2 pair.2, events)
    else
      (st.1, events)
  else
    (st.1, st.2)

/-- PhysicsSystem.checkCollisions (lines 77-106): filter the collidable
entities once, then process every unordered pair in index order,
threading the mutated store; returns the final store and the log of
callback invocations. -/
def checkCollisions (es : List (Entity ℚ)) :
    List (Entity ℚ) × List (String × String) :=
  (allPairs (collidableIdxs es)).foldl processPair (es, [])

end PhysicsSystem

namespace PhysicsSystem

namespace Integrator

/-- Step 1 of PhysicsSystem.update (lines 30-31): velocity += acceleration * dt. -/
def applyAcceleration (p : PhysicsComponent ℝ) (dt : ℝ) : PhysicsComponent ℝ :=
  { p with velocity := ⟨p.velocity.x + p.acceleration.x * dt,
                        p.velocity.y + p.acceleration.y * dt⟩ }

/-- Step 2 of PhysicsSystem.update (lines 34-35): velocity *= friction. -/
def applyFriction (p : PhysicsComponent ℝ) : PhysicsComponent ℝ :=
  { p with velocity := ⟨p.velocity.x * p.friction, p.velocity.y * p.friction⟩ }

/-- Step 3 of PhysicsSystem.update (lines 38-43): if the speed exceeds
config.physics.maxVelocity, rescale the velocity to that maximum. -/
noncomputable def clampVelocity (p : PhysicsComponent ℝ) : PhysicsComponent ℝ :=
  let speed := Real.sqrt (p.velocity.x ^ 2 + p.velocity.y ^ 2)
  if speed > config.maxVelocity then
    { p with velocity := ⟨p.velocity.x / speed * config.maxVelocity,
                          p.velocity.y / speed * config.maxVelocity⟩ }
  else p

/-- Step 4 of PhysicsSystem.update (lines 46-47): position += velocity * dt. -/
def integratePosition (t : TransformComponent ℝ) (p : PhysicsComponent ℝ)
    (dt : ℝ) : TransformComponent ℝ :=
  { t with position := ⟨t.position.x + p.velocity.x * dt,
                        t.position.y + p.velocity.y * dt⟩ }

/-- The footprint size used by the boundary clamp (lines 52-53): the
sprite width when a sprite is present, 32 otherwise.  Note the code
uses the sprite WIDTH for both axes. -/
def boundsSize (e : Entity ℝ) : ℝ :=
  match e.sprite with
  | some s => s.width
  | none => 32

/-- Step 5 of PhysicsSystem.update (lines 55-70): four sequential
clamps keeping position.x in [0, canvasWidth - size] and position.y in
[0, canvasHeight - size]; each clamp that fires zeroes the velocity
component of its axis. -/
noncomputable def keepInBounds (t : TransformComponent ℝ)
    (p : PhysicsComponent ℝ) (size : ℝ) :
    TransformComponent ℝ × PhysicsComponent ℝ :=
  let x0 := t.position.x
  let vx0 := p.velocity.x
  let x1 := if x0 < 0 then 0 else x0
  let vx1 := if x0 < 0 then 0 else vx0
  let x2 := if x1 > config.canvasWidth - size then config.canvasWidth - size else x1
  let vx2 := if x1 > config.canvasWidth - size then 0 else vx1
  let y0 := t.position.y
  let vy0 := p.velocity.y
  let y1 := if y0 < 0 then 0 else y0
  let vy1 := if y0 < 0 then 0 else vy0
  let y2 := if y1 > config.canvasHeight - size then config.canvasHeight - size else y1
  let vy2 := if y1 > config.canvasHeight - size then 0 else vy1
  ({ t with position := ⟨x2, y2⟩ }, { p with velocity := ⟨vx2, vy2⟩ })

/-- One iteration of the loop of PhysicsSystem.update (lines 20-71):
inactive entities and entities missing the transform or the physics
component are skipped; otherwise the five steps run in order. -/
noncomputable def updateEntity (e : Entity ℝ) (dt : ℝ) : Entity ℝ :=
  if e.active = false then e else
  match e.transform, e.physics with
  | some t, some p =>
      let p1 := clampVelocity (applyFriction (applyAcceleration p dt))
      let t1 := integratePosition t p1 dt
      let tp := keepInBounds t1 p1 (boundsSize e)
      { e with transform := some tp.1, physics := some tp.2 }
  | _, _ => e

/-- PhysicsSystem.update over the entity list. -/
noncomputable def update (es : List (Entity ℝ)) (dt : ℝ) : List (Entity ℝ) :=
  es.map (fun e => updateEntity e dt)

/-- PhysicsSystem.distance (lines 200-204). -/
noncomputable def distance (a b : Vec2 ℝ) : ℝ :=
  let dx := b.x - a.x
  let dy := b.y - a.y
  Real.sqrt (dx * dx + dy * dy)

/-- PhysicsSystem.direction (lines 209-220): the normalised vector from
the first position to the second, or the zero vector when the length
is exactly zero. -/
noncomputable def direction (a b : Vec2 ℝ) : Vec2 ℝ :=
  let dx := b.x - a.x
  let dy := b.y - a.y
  let length := Real.sqrt (dx * dx + dy * dy)
  if length = 0 then ⟨0, 0⟩
  else ⟨dx / length, dy / length⟩

end Integrator

end PhysicsSystem

namespace EntityFactory

/-- EntityFactory.createPlayer (entity.ts lines 116-155).  The health
component is created WITHOUT an onDeath callback. -/
def createPlayer (x y : ℚ) : Entity ℚ :=
  { id := "player", active := true,
    transform := some { position := ⟨x, y⟩, rotation := 0, scale := ⟨1, 1⟩ },
    physics := some { velocity := ⟨0, 0⟩, acceleration := ⟨0, 0⟩,
                      mass := 1, friction := config.friction },
    sprite := some { width := config.playerSize, height := config.playerSize,
                     color := config.playerColor },
    collider := some { width := config.playerSize, height := config.playerSize,
                       isTrigger := false, onCollision := false },
    health := some { current := config.playerMaxHealth,
                     max := config.playerMaxHealth, onDeath := none } }

/-- EntityFactory.createEnemy (entity.ts lines 157-190); the generated
random id is taken as a parameter. -/
def createEnemy (id : String) (x y : ℚ) : Entity ℚ :=
  { id := id, active := true,
    transform := some { position := ⟨x, y⟩, rotation := 0, scale := ⟨1, 1⟩ },
    physics := some { velocity := ⟨0, 0⟩, acceleration := ⟨0, 0⟩,
                      mass := 1, friction := config.friction },
    sprite := some { width := config.enemySize, height := config.enemySize,
                     color := config.enemyColor },
    collider := some { width := config.enemySize, height := config.enemySize,
                       isTrigger := false, onCollision := false },
    health := none }

end EntityFactory

namespace MainScene

/-- The scene state touched by the collision pass of mainScene.ts: the
player entity, the other entities of the manager, the score, the
flames-extinguished counter and the game state.  (The player is stored
in the manager under the id "player" and skipped by the loop; holding
it separately is the same store.) -/
structure SceneState where
  player : Entity ℚ
  others : List (Entity ℚ)
  score : ℚ
  flamesExtinguished : ℚ
  gameState : GameState
deriving DecidableEq, Repr

/-- The death-callback installation of MainScene.init (mainScene.ts
lines 96-101): the GAME_OVER callback is assigned ONLY when the health
component already carries an onDeath callback. -/
def installDeathCallback (e : Entity ℚ) : Entity ℚ :=
  match e.health with
  | some h =>
      if h.onDeath.isSome then
        { e with health := some { h with onDeath := some GameState.GAME_OVER } }
      else e
  | none => e

/-- The player created and wired by MainScene.init (lines 88-101):
EntityFactory.createPlayer at the canvas centre followed by the
conditional death-callback installation. -/
def initPlayer : Entity ℚ :=
  installDeathCallback
    (EntityFactory.createPlayer (640 / 2 - 32 / 2) (360 / 2 - 32 / 2))

/-- The enemy-collision reaction of MainScene.handleCollisions
(lines 266-281), health part and bookkeeping: subtract
config.enemy.damage from the player health, clamp at 0, fire the death
callback when present (it sets the game state it carries), then count
the flame and add 20 score.  The removal of the entity is handled by
the caller. -/
def applyEnemyHit (st : SceneState) : SceneState :=
  let st1 :=
    match st.player.health with
    | some h =>
        let cur := h.current - config.enemyDamage
        if cur ≤ 0 then
          { st with
            player := { st.player with health := some { h with current := 0 } },
            gameState := match h.onDeath with
                         | some g => g
                         | none => st.gameState }
        else
          { st with
            player := { st.player with health := some { h with current := cur } } }
    | none => st
  { st1 with flamesExtinguished := st1.flamesExtinguished + 1,
             score := st1.score + 20 }

/-- The pickup-collision reaction of MainScene.handleCollisions
(lines 284-294): heal the player up to the maximum and add 10 score.
The removal of the entity is handled by the caller. -/
def applyPickup (st : SceneState) : SceneState :=
  let st1 :=
    match st.player.health with
    | some h =>
        { st with player := { st.player with
            health := some { h with
              current := min (h.current + config.pickupHealAmount) h.max } } }
    | none => st
  { st1 with score := st1.score + 10 }

/-- One iteration of the loop of MainScene.handleCollisions
(lines 259-296) for a single entity of the store: entities with the
player id and inactive entities are skipped; otherwise the entity is
tested against the player only, and on overlap the colour tag of its
sprite selects the reaction.  Returns the new scene state and whether
the entity is kept in the store (false when it was removed). -/
def handleOne (st : SceneState) (e : Entity ℚ) : SceneState × Bool :=
  if e.id = "player" ∨ e.active = false then (st, true)
  else if PhysicsSystem.isColliding st.player e then
    let spriteColor := e.sprite.map SpriteComponent.color
    let r1 : SceneState × Bool :=
      if spriteColor = some config.enemyColor then (applyEnemyHit st, false)
      else (st, true)
    let r2 : SceneState × Bool :=
      if spriteColor = some config.pickupColor then (applyPickup r1.1, false)
      else r1
    r2
  else (st, true)

/-- The fold of MainScene.handleCollisions over the snapshot of the
store, accumulating the surviving entities in order. -/
def handleFold (st : SceneState) (acc : List (Entity ℚ))
    (es : List (Entity ℚ)) : SceneState × List (Entity ℚ) :=
  match es with
  | [] => (st, acc)
  | e :: rest =>
      let r := handleOne st e
      handleFold r.1 (if r.2 then acc ++ [e] else acc) rest

/-- MainScene.handleCollisions (mainScene.ts lines 254-297). -/
def handleCollisions (s : SceneState) : SceneState :=
  let r := handleFold s [] s.others
  { r.1 with others := r.2 }

/-- The per-enemy velocity assignment of MainScene.updateEnemies
(mainScene.ts lines 229-252): entities selected by getEnemies (id not
"player", physics present, sprite colour = config.enemy.color) with
both a transform and a physics component get velocity =
direction(position, playerPosition) * config.enemy.speed. -/
noncomputable def updateEnemy (playerPos : Vec2 ℝ) (e : Entity ℝ) : Entity ℝ :=
  if e.id ≠ "player" ∧ e.physics.isSome ∧
     (e.sprite.map SpriteComponent.color) = some config.enemyColor then
    match e.transform, e.physics with
    | some t, some p =>
        let dir := PhysicsSystem.Integrator.direction t.position playerPos
        { e with physics := some { p with
            velocity := ⟨dir.x * config.enemySpeed, dir.y * config.enemySpeed⟩ } }
    | _, _ => e
  else e

/-- MainScene.updateEnemies over the entity list. -/
noncomputable def updateEnemies (playerPos : Vec2 ℝ) (es : List (Entity ℝ)) :
    List (Entity ℝ) :=
  es.map (updateEnemy playerPos)

end MainScene

namespace GameEngine

/-- The tick duration computed by GameEngine.gameLoop (engine.ts
line 111) and passed unchanged to scene.update (line 114):
min of the elapsed wall-clock seconds and the 0.05 cap. -/
def gameLoopDt (timestamp lastTime : ℚ) : ℚ :=
  min ((timestamp - lastTime) / 1000) 0.05

end GameEngine

/-- Test fixture: an entity with transform and a w-by-h collider only
(as used by the AABB overlap test cases of the spec). -/
def unitBox (id : String) (x y : ℚ) : Entity ℚ :=
  { id := id, active := true,
    transform := some { position := ⟨x, y⟩, rotation := 0, scale := ⟨1, 1⟩ },
    physics := none, sprite := none,
    collider := some { width := 1, height := 1, isTrigger := false,
                       onCollision := false },
    health := none }

/-- Test fixture: an entity with transform, physics and a w-by-h
non-trigger collider. -/
def physBox (id : String) (x y w h : ℚ) : Entity ℚ :=
  { id := id, active := true,
    transform := some { position := ⟨x, y⟩, rotation := 0, scale := ⟨1, 1⟩ },
    physics := some { velocity := ⟨3, 4⟩, acceleration := ⟨0, 0⟩,
                      mass := 1, friction := 0.8 },
    sprite := none,
    collider := some { width := w, height := h, isTrigger := false,
                       onCollision := false },
    health := none }

/-- Test fixture: an entity with transform, physics and a collider with
chosen trigger and callback flags. -/
def colBox (id : String) (x y w h : ℚ) (trig cb : Bool) : Entity ℚ :=
  { id := id, active := true,
    transform := some { position := ⟨x, y⟩, rotation := 0, scale := ⟨1, 1⟩ },
    physics := some { velocity := ⟨3, 4⟩, acceleration := ⟨0, 0⟩,
                      mass := 1, friction := 0.8 },
    sprite := none,
    collider := some { width := w, height := h, isTrigger := trig,
                       onCollision := cb },
    health := none }

/-- C3: for every two entities each having transform and collider
components, isColliding returns true exactly when the four strict AABB
inequalities hold (open-interval overlap; touching edges do not count). -/
theorem C3_isColliding_iff (a b : Entity ℚ)
    (ta tb : TransformComponent ℚ) (ca cb : ColliderComponent ℚ)
    (hta : a.transform = some ta) (htb : b.transform = some tb)
    (hca : a.collider = some ca) (hcb : b.collider = some cb) :
    PhysicsSystem.isColliding a b = true ↔
      (ta.position.x < tb.position.x + cb.width ∧
       ta.position.x + ca.width > tb.position.x ∧
       ta.position.y < tb.position.y + cb.height ∧
       ta.position.y + ca.height > tb.position.y) := by
  simp [PhysicsSystem.isColliding, hta, htb, hca, hcb]

/-- Witness for C3: two 1-by-1 boxes at (0,0) and (0.5,0.5) collide,
and two 1-by-1 boxes at (0,0) and (1,1) (edge-touching) do not. -/
theorem C3_isColliding_iff_witness :
    PhysicsSystem.isColliding (unitBox "a" 0 0) (unitBox "b" 0.5 0.5) = true ∧
    PhysicsSystem.isColliding (unitBox "a" 0 0) (unitBox "b" 1 1) = false := by
  constructor
  · exact (C3_isColliding_iff (unitBox "a" 0 0) (unitBox "b" 0.5 0.5)
      _ _ _ _ rfl rfl rfl rfl).mpr (by norm_num [unitBox])
  · have h := C3_isColliding_iff (unitBox "a" 0 0) (unitBox "b" 1 1)
      _ _ _ _ rfl rfl rfl rfl
    rw [Bool.eq_false_iff]
    intro hcol
    have := h.mp hcol
    norm_num [unitBox] at this

/-- C9 counterexample: a tick whose timestamp is 1000 ms older than the
stored lastTime produces dt = -1, which is passed to scene.update
unchanged: a negative elapsed time is NOT clamped to a safe
default/minimum. -/
theorem C9_counterexample_negative_dt_propagates :
    GameEngine.gameLoopDt 0 1000 = -1 ∧ GameEngine.gameLoopDt 0 1000 < 0 := by
  have h : GameEngine.gameLoopDt 0 1000 = -1 := by
    unfold GameEngine.gameLoopDt
    rw [min_eq_left (by norm_num)]
    norm_num
  exact ⟨h, by rw [h]; norm_num⟩

/-- C9 (amended): the dt computed by the game loop never exceeds the
0.05-second cap, and for a monotone clock (timestamp at least
lastTime) it is non-negative; there is no lower clamp for a negative
elapsed time. -/
theorem C9_dt_capped (timestamp lastTime : ℚ) :
    GameEngine.gameLoopDt timestamp lastTime ≤ 0.05 ∧
    (lastTime ≤ timestamp → 0 ≤ GameEngine.gameLoopDt timestamp lastTime) := by
  constructor
  · exact min_le_right _ _
  · intro h
    unfold GameEngine.gameLoopDt
    have h1 : (0:ℚ) ≤ (timestamp - lastTime) / 1000 :=
      div_nonneg (by linarith) (by norm_num)
    exact le_min h1 (by norm_num)

/-- Witness for C9: a tick 50 ms after the previous one gets a dt that
is capped at 0.05 and non-negative. -/
theorem C9_dt_capped_witness :
    GameEngine.gameLoopDt 100 50 ≤ 0.05 ∧ 0 ≤ GameEngine.gameLoopDt 100 50 := by
  have h := C9_dt_capped 100 50
  exact ⟨h.1, h.2 (by norm_num)⟩

/-- Test fixture: two 2-by-2 physics boxes whose X and Y penetration
depths are both exactly 1. -/
def tieBoxA : Entity ℚ := physBox "A" 0 0 2 2
def tieBoxB : Entity ℚ := physBox "B" 1 1 2 2

/-- C1 counterexample: two overlapping non-trigger 2-by-2 boxes at
(0,0) and (1,1) have X and Y penetration depths both equal to 1, yet
resolveCollision leaves both x coordinates unchanged and moves the
pair apart along Y: an exact tie is resolved along the Y axis, not X
(the code separates along X only when overlapX is STRICTLY smaller). -/
theorem C1_counterexample_tie_separates_y :
    PhysicsSystem.isColliding tieBoxA tieBoxB = true ∧
    (∃ ta tb ca cb, tieBoxA.transform = some ta ∧ tieBoxB.transform = some tb ∧
      tieBoxA.collider = some ca ∧ tieBoxB.collider = some cb ∧
      PhysicsSystem.overlapXc ta tb ca cb = 1 ∧
      PhysicsSystem.overlapYc ta tb ca cb = 1) ∧
    (PhysicsSystem.resolveCollision tieBoxA tieBoxB).1 =
      { tieBoxA with
        transform := some { position := ⟨0, -(1/2)⟩, rotation := 0, scale := ⟨1, 1⟩ },
        physics := some { velocity := ⟨3, 0⟩, acceleration := ⟨0, 0⟩,
                          mass := 1, friction := 0.8 } } ∧
    (PhysicsSystem.resolveCollision tieBoxA tieBoxB).2 =
      { tieBoxB with
        transform := some { position := ⟨1, 3/2⟩, rotation := 0, scale := ⟨1, 1⟩ },
        physics := some { velocity := ⟨3, 0⟩, acceleration := ⟨0, 0⟩,
                          mass := 1, friction := 0.8 } } := by
  refine ⟨by norm_num [PhysicsSystem.isColliding, tieBoxA, tieBoxB, physBox],
    ⟨_, _, _, _, rfl, rfl, rfl, rfl, by norm_num [PhysicsSystem.overlapXc, physBox],
      by norm_num [PhysicsSystem.overlapYc, physBox]⟩, ?_, ?_⟩ <;>
  norm_num [PhysicsSystem.resolveCollision, PhysicsSystem.overlapXc,
    PhysicsSystem.overlapYc, PhysicsSystem.withPos, PhysicsSystem.stopVelX,
    PhysicsSystem.stopVelY, tieBoxA, tieBoxB, physBox]

/-- C1 (amended): for every pair of overlapping non-trigger entities
with transform, collider and physics components whose penetration
depths on X and Y are exactly equal, resolveCollision separates them
along the Y axis (the else-branch of overlapX < overlapY): both x
coordinates are unchanged, the y correction is half the Y overlap to
each entity in opposite directions, and both y velocities are zeroed. -/
theorem C1_amended_tie_separates_along_y (a b : Entity ℚ)
    (ta tb : TransformComponent ℚ) (ca cb : ColliderComponent ℚ)
    (pa pb : PhysicsComponent ℚ)
    (hta : a.transform = some ta) (htb : b.transform = some tb)
    (hca : a.collider = some ca) (hcb : b.collider = some cb)
    (hpa : a.physics = some pa) (hpb : b.physics = some pb)
    (htra : ca.isTrigger = false) (htrb : cb.isTrigger = false)
    (hcol : PhysicsSystem.isColliding a b = true)
    (htie : PhysicsSystem.overlapXc ta tb ca cb =
            PhysicsSystem.overlapYc ta tb ca cb) :
    ∃ posA posB : Vec2 ℚ,
      (PhysicsSystem.resolveCollision a b).1 =
        { a with transform := some { ta with position := posA },
                 physics := some { pa with velocity := ⟨pa.velocity.x, 0⟩ } } ∧
      (PhysicsSystem.resolveCollision a b).2 =
        { b with transform := some { tb with position := posB },
                 physics := some { pb with velocity := ⟨pb.velocity.x, 0⟩ } } ∧
      posA.x = ta.position.x ∧ posB.x = tb.position.x ∧
      (ta.position.y < tb.position.y →
        posA.y = ta.position.y - PhysicsSystem.overlapYc ta tb ca cb / 2 ∧
        posB.y = tb.position.y + PhysicsSystem.overlapYc ta tb ca cb / 2) ∧
      (¬ ta.position.y < tb.position.y →
        posA.y = ta.position.y + PhysicsSystem.overlapYc ta tb ca cb / 2 ∧
        posB.y = tb.position.y - PhysicsSystem.overlapYc ta tb ca cb / 2) := by
  obtain ⟨aid, aact, atr, aph, asp, acl, ahl⟩ := a
  obtain ⟨bid, bact, btr, bph, bsp, bcl, bhl⟩ := b
  simp only at hta htb hca hcb hpa hpb
  subst hta htb hca hcb hpa hpb
  simp only [PhysicsSystem.resolveCollision, htie, lt_irrefl, if_false,
    PhysicsSystem.withPos, PhysicsSystem.stopVelY, Option.map_some]
  by_cases hy : ta.position.y < tb.position.y
  · refine ⟨⟨ta.position.x, ta.position.y - PhysicsSystem.overlapYc ta tb ca cb / 2⟩,
      ⟨tb.position.x, tb.position.y + PhysicsSystem.overlapYc ta tb ca cb / 2⟩,
      ?_, ?_, rfl, rfl, fun _ => ⟨rfl, rfl⟩, fun h => absurd hy h⟩ <;>
    simp [hy]
  · refine ⟨⟨ta.position.x, ta.position.y + PhysicsSystem.overlapYc ta tb ca cb / 2⟩,
      ⟨tb.position.x, tb.position.y - PhysicsSystem.overlapYc ta tb ca cb / 2⟩,
      ?_, ?_, rfl, rfl, fun h => absurd h hy, fun _ => ⟨rfl, rfl⟩⟩ <;>
    simp [hy]

/-- Witness for C1: the amended theorem applied to the tie pair of the
counterexample, evaluated to the concrete separated positions. -/
theorem C1_amended_witness :
    (PhysicsSystem.resolveCollision tieBoxA tieBoxB).1.transform =
      some { position := ⟨0, -(1/2)⟩, rotation := 0, scale := ⟨1, 1⟩ } ∧
    (PhysicsSystem.resolveCollision tieBoxA tieBoxB).2.transform =
      some { position := ⟨1, 3/2⟩, rotation := 0, scale := ⟨1, 1⟩ } := by
  obtain ⟨posA, posB, h1, h2, hx1, hx2, hylt, -⟩ :=
    C1_amended_tie_separates_along_y tieBoxA tieBoxB _ _ _ _ _ _
      rfl rfl rfl rfl rfl rfl rfl rfl
      (by norm_num [PhysicsSystem.isColliding, tieBoxA, tieBoxB, physBox])
      (by norm_num [PhysicsSystem.overlapXc, PhysicsSystem.overlapYc,
        tieBoxA, tieBoxB, physBox])
  have hy := hylt (by norm_num [tieBoxA, tieBoxB, physBox])
  have hA : posA = ⟨0, -(1/2)⟩ := by
    obtain ⟨px, py⟩ := posA
    simp only [tieBoxA, physBox] at hx1 hy
    norm_num [PhysicsSystem.overlapYc, tieBoxA, tieBoxB, physBox] at hy
    simp_all
  have hB : posB = ⟨1, 3/2⟩ := by
    obtain ⟨px, py⟩ := posB
    simp only [tieBoxB, physBox] at hx2 hy
    norm_num [PhysicsSystem.overlapYc, tieBoxA, tieBoxB, physBox] at hy
    simp_all
  rw [h1, h2, hA, hB]
  exact ⟨rfl, rfl⟩

/-- Test fixture: a 100-by-10 box and a 1-by-10 box whose X projection
it contains (overlapX = 2, overlapY = 10). -/
def cwBoxA : Entity ℚ := physBox "A" 0 0 100 10
def cwBoxB : Entity ℚ := physBox "B" 1 0 1 10

/-- Test fixture: two overlapping unit boxes with equal collider sizes
(overlapX = 0.5 is the smaller depth). -/
def sqBoxA : Entity ℚ := physBox "a" 0 0 1 1
def sqBoxB : Entity ℚ := physBox "b" 0.5 0.3 1 1

/-- C4 counterexample: for the overlapping non-trigger pair cwBoxA,
cwBoxB (a 100-wide box whose X projection contains the 1-wide box),
resolveCollision moves the pair along X by half the X overlap each,
yet re-testing isColliding on the result still returns true: the
separation invariant fails when the code's left-edge branch disagrees
with the centre ordering on the separation axis. -/
theorem C4_counterexample_still_colliding_after_resolve :
    PhysicsSystem.isColliding cwBoxA cwBoxB = true ∧
    PhysicsSystem.isColliding (PhysicsSystem.resolveCollision cwBoxA cwBoxB).1
      (PhysicsSystem.resolveCollision cwBoxA cwBoxB).2 = true := by
  constructor <;>
  norm_num [PhysicsSystem.isColliding, PhysicsSystem.resolveCollision,
    PhysicsSystem.overlapXc, PhysicsSystem.overlapYc, PhysicsSystem.withPos,
    PhysicsSystem.stopVelX, PhysicsSystem.stopVelY, cwBoxA, cwBoxB, physBox]

/-- C4 (amended): for every overlapping pair of entities with
transform, collider and physics components whose colliders have equal
width and equal height, after resolveCollision: re-testing isColliding
returns false, the positional correction along the chosen axis is half
the smaller overlap to each entity in opposite directions (the other
axis untouched), and both velocity components along the separation
axis are zero.  (Without the equal-size restriction the re-test can
stay true, as the counterexample shows.) -/
theorem C4_amended_separation_invariant (a b : Entity ℚ)
    (ta tb : TransformComponent ℚ) (ca cb : ColliderComponent ℚ)
    (pa pb : PhysicsComponent ℚ)
    (hta : a.transform = some ta) (htb : b.transform = some tb)
    (hca : a.collider = some ca) (hcb : b.collider = some cb)
    (hpa : a.physics = some pa) (hpb : b.physics = some pb)
    (hw : ca.width = cb.width) (hh : ca.height = cb.height)
    (hcol : PhysicsSystem.isColliding a b = true) :
    ∃ posA posB va vb : Vec2 ℚ,
      (PhysicsSystem.resolveCollision a b).1 =
        { a with transform := some { ta with position := posA },
                 physics := some { pa with velocity := va } } ∧
      (PhysicsSystem.resolveCollision a b).2 =
        { b with transform := some { tb with position := posB },
                 physics := some { pb with velocity := vb } } ∧
      PhysicsSystem.isColliding (PhysicsSystem.resolveCollision a b).1
        (PhysicsSystem.resolveCollision a b).2 = false ∧
      (PhysicsSystem.overlapXc ta tb ca cb < PhysicsSystem.overlapYc ta tb ca cb →
        posA.y = ta.position.y ∧ posB.y = tb.position.y ∧
        |posA.x - ta.position.x| = PhysicsSystem.overlapXc ta tb ca cb / 2 ∧
        |posB.x - tb.position.x| = PhysicsSystem.overlapXc ta tb ca cb / 2 ∧
        (posA.x - ta.position.x) + (posB.x - tb.position.x) = 0 ∧
        va = ⟨0, pa.velocity.y⟩ ∧ vb = ⟨0, pb.velocity.y⟩) ∧
      (¬ PhysicsSystem.overlapXc ta tb ca cb < PhysicsSystem.overlapYc ta tb ca cb →
        posA.x = ta.position.x ∧ posB.x = tb.position.x ∧
        |posA.y - ta.position.y| = PhysicsSystem.overlapYc ta tb ca cb / 2 ∧
        |posB.y - tb.position.y| = PhysicsSystem.overlapYc ta tb ca cb / 2 ∧
        (posA.y - ta.position.y) + (posB.y - tb.position.y) = 0 ∧
        va = ⟨pa.velocity.x, 0⟩ ∧ vb = ⟨pb.velocity.x, 0⟩) := by
  obtain ⟨aid, aact, atr, aph, asp, acl, ahl⟩ := a
  obtain ⟨bid, bact, btr, bph, bsp, bcl, bhl⟩ := b
  simp only at hta htb hca hcb hpa hpb
  subst hta htb hca hcb hpa hpb
  simp only [PhysicsSystem.isColliding, decide_eq_true_eq] at hcol
  obtain ⟨g1, g2, g3, g4⟩ := hcol
  have hOX : 0 < PhysicsSystem.overlapXc ta tb ca cb :=
    lt_min (by linarith) (by linarith)
  have hOY : 0 < PhysicsSystem.overlapYc ta tb ca cb :=
    lt_min (by linarith) (by linarith)
  by_cases hxy : PhysicsSystem.overlapXc ta tb ca cb <
      PhysicsSystem.overlapYc ta tb ca cb
  · simp only [PhysicsSystem.resolveCollision, PhysicsSystem.withPos,
      PhysicsSystem.stopVelX, PhysicsSystem.stopVelY, Option.map_some,
      if_pos hxy]
    by_cases hx : ta.position.x < tb.position.x
    · have hminX : PhysicsSystem.overlapXc ta tb ca cb =
          ta.position.x + ca.width - tb.position.x :=
        min_eq_left (by rw [hw]; linarith)
      rw [if_pos hx]
      refine ⟨⟨ta.position.x - PhysicsSystem.overlapXc ta tb ca cb / 2, ta.position.y⟩,
        ⟨tb.position.x + PhysicsSystem.overlapXc ta tb ca cb / 2, tb.position.y⟩,
        ⟨0, pa.velocity.y⟩, ⟨0, pb.velocity.y⟩, rfl, rfl, ?_,
        fun _ => ⟨rfl, rfl, ?_, ?_, by ring, rfl, rfl⟩, fun h => absurd hxy h⟩
      · simp only [PhysicsSystem.isColliding, decide_eq_false_iff_not]
        rintro ⟨k1, k2, k3, k4⟩
        rw [hminX] at k2
        linarith
      · rw [show ta.position.x - PhysicsSystem.overlapXc ta tb ca cb / 2 -
            ta.position.x = -(PhysicsSystem.overlapXc ta tb ca cb / 2) by ring,
          abs_neg, abs_of_nonneg (by linarith)]
      · rw [show tb.position.x + PhysicsSystem.overlapXc ta tb ca cb / 2 -
            tb.position.x = PhysicsSystem.overlapXc ta tb ca cb / 2 by ring,
          abs_of_nonneg (by linarith)]
    · have hminX : PhysicsSystem.overlapXc ta tb ca cb =
          tb.position.x + cb.width - ta.position.x :=
        min_eq_right (by rw [hw]; push_neg at hx; linarith)
      rw [if_neg hx]
      refine ⟨⟨ta.position.x + PhysicsSystem.overlapXc ta tb ca cb / 2, ta.position.y⟩,
        ⟨tb.position.x - PhysicsSystem.overlapXc ta tb ca cb / 2, tb.position.y⟩,
        ⟨0, pa.velocity.y⟩, ⟨0, pb.velocity.y⟩, rfl, rfl, ?_,
        fun _ => ⟨rfl, rfl, ?_, ?_, by ring, rfl, rfl⟩, fun h => absurd hxy h⟩
      · simp only [PhysicsSystem.isColliding, decide_eq_false_iff_not]
        rintro ⟨k1, k2, k3, k4⟩
        rw [hminX] at k1
        linarith
      · rw [show ta.position.x + PhysicsSystem.overlapXc ta tb ca cb / 2 -
            ta.position.x = PhysicsSystem.overlapXc ta tb ca cb / 2 by ring,
          abs_of_nonneg (by linarith)]
      · rw [show tb.position.x - PhysicsSystem.overlapXc ta tb ca cb / 2 -
            tb.position.x = -(PhysicsSystem.overlapXc ta tb ca cb / 2) by ring,
          abs_neg, abs_of_nonneg (by linarith)]
  · simp only [PhysicsSystem.resolveCollision, PhysicsSystem.withPos,
      PhysicsSystem.stopVelX, PhysicsSystem.stopVelY, Option.map_some,
      if_neg hxy]
    by_cases hy : ta.position.y < tb.position.y
    · have hminY : PhysicsSystem.overlapYc ta tb ca cb =
          ta.position.y + ca.height - tb.position.y :=
        min_eq_left (by rw [hh]; linarith)
      rw [if_pos hy]
      refine ⟨⟨ta.position.x, ta.position.y - PhysicsSystem.overlapYc ta tb ca cb / 2⟩,
        ⟨tb.position.x, tb.position.y + PhysicsSystem.overlapYc ta tb ca cb / 2⟩,
        ⟨pa.velocity.x, 0⟩, ⟨pb.velocity.x, 0⟩, rfl, rfl, ?_,
        fun h => absurd h hxy, fun _ => ⟨rfl, rfl, ?_, ?_, by ring, rfl, rfl⟩⟩
      · simp only [PhysicsSystem.isColliding, decide_eq_false_iff_not]
        rintro ⟨k1, k2, k3, k4⟩
        rw [hminY] at k4
        linarith
      · rw [show ta.position.y - PhysicsSystem.overlapYc ta tb ca cb / 2 -
            ta.position.y = -(PhysicsSystem.overlapYc ta tb ca cb / 2) by ring,
          abs_neg, abs_of_nonneg (by linarith)]
      · rw [show tb.position.y + PhysicsSystem.overlapYc ta tb ca cb / 2 -
            tb.position.y = PhysicsSystem.overlapYc ta tb ca cb / 2 by ring,
          abs_of_nonneg (by linarith)]
    · have hminY : PhysicsSystem.overlapYc ta tb ca cb =
          tb.position.y + cb.height - ta.position.y :=
        min_eq_right (by rw [hh]; push_neg at hy; linarith)
      rw [if_neg hy]
      refine ⟨⟨ta.position.x, ta.position.y + PhysicsSystem.overlapYc ta tb ca cb / 2⟩,
        ⟨tb.position.x, tb.position.y - PhysicsSystem.overlapYc ta tb ca cb / 2⟩,
        ⟨pa.velocity.x, 0⟩, ⟨pb.velocity.x, 0⟩, rfl, rfl, ?_,
        fun h => absurd h hxy, fun _ => ⟨rfl, rfl, ?_, ?_, by ring, rfl, rfl⟩⟩
      · simp only [PhysicsSystem.isColliding, decide_eq_false_iff_not]
        rintro ⟨k1, k2, k3, k4⟩
        rw [hminY] at k3
        linarith
      · rw [show ta.position.y + PhysicsSystem.overlapYc ta tb ca cb / 2 -
            ta.position.y = PhysicsSystem.overlapYc ta tb ca cb / 2 by ring,
          abs_of_nonneg (by linarith)]
      · rw [show tb.position.y - PhysicsSystem.overlapYc ta tb ca cb / 2 -
            tb.position.y = -(PhysicsSystem.overlapYc ta tb ca cb / 2) by ring,
          abs_neg, abs_of_nonneg (by linarith)]

/-- Witness for C4: two equal-size overlapping unit boxes collide
before resolveCollision and no longer collide after it. -/
theorem C4_amended_witness :
    PhysicsSystem.isColliding sqBoxA sqBoxB = true ∧
    PhysicsSystem.isColliding (PhysicsSystem.resolveCollision sqBoxA sqBoxB).1
      (PhysicsSystem.resolveCollision sqBoxA sqBoxB).2 = false := by
  have hcol : PhysicsSystem.isColliding sqBoxA sqBoxB = true := by
    norm_num [PhysicsSystem.isColliding, sqBoxA, sqBoxB, physBox]
  obtain ⟨posA, posB, va, vb, -, -, hfalse, -, -⟩ :=
    C4_amended_separation_invariant sqBoxA sqBoxB _ _ _ _ _ _
      rfl rfl rfl rfl rfl rfl rfl rfl hcol
  exact ⟨hcol, hfalse⟩

/-- Test fixtures for the collision pass: trigBoxA overlaps the
trigger trigBoxB and also the non-trigger trigBoxC. -/
def trigBoxA : Entity ℚ := colBox "A" 0 0 4 4 false true
def trigBoxB : Entity ℚ := colBox "B" 1 1 2 2 true true
def trigBoxC : Entity ℚ := colBox "C" 3 1 4 4 false false

/-- Test fixtures: a colliding pair whose second member is a trigger,
both with callbacks. -/
def trigWitA : Entity ℚ := colBox "wa" 0 0 2 2 false true
def trigWitB : Entity ℚ := colBox "wb" 1 1 2 2 true true

/-- Reduction of processPair for a colliding pair with at least one
trigger: the store is untouched and the callback invocations are
appended. -/
theorem processPair_trigger (es : List (Entity ℚ))
    (acc : List (String × String)) (ij : ℕ × ℕ)
    (hc : PhysicsSystem.isColliding (es.getD ij.1 default)
      (es.getD ij.2 default) = true)
    (htr : (PhysicsSystem.notTrigger (es.getD ij.1 default) &&
      PhysicsSystem.notTrigger (es.getD ij.2 default)) = false) :
    PhysicsSystem.processPair (es, acc) ij =
      (es, acc ++ PhysicsSystem.pairEvents (es.getD ij.1 default)
        (es.getD ij.2 default)) := by
  have hneg : ¬ ((PhysicsSystem.notTrigger (es.getD ij.1 default) &&
      PhysicsSystem.notTrigger (es.getD ij.2 default)) = true) := by
    rw [htr]; exact Bool.false_ne_true
  simp only [PhysicsSystem.processPair]
  rw [if_pos hc, if_neg hneg]

/-- Reduction of processPair for a non-colliding pair: nothing happens. -/
theorem processPair_not_colliding (es : List (Entity ℚ))
    (acc : List (String × String)) (ij : ℕ × ℕ)
    (hc : ¬ PhysicsSystem.isColliding (es.getD ij.1 default)
      (es.getD ij.2 default) = true) :
    PhysicsSystem.processPair (es, acc) ij = (es, acc) := by
  simp only [PhysicsSystem.processPair]
  rw [if_neg hc]

/-- Auxiliary induction for checkCollisions: when every colliding pair
of the processed list has at least one trigger, the store is never
mutated and every colliding pair's callback invocations end up in the
event log. -/
theorem checkCollisions_trigger_aux (es : List (Entity ℚ))
    (ps : List (ℕ × ℕ)) :
    ∀ acc : List (String × String),
    (∀ ij ∈ ps,
      PhysicsSystem.isColliding (es.getD ij.1 default) (es.getD ij.2 default) = true →
      (PhysicsSystem.notTrigger (es.getD ij.1 default) &&
       PhysicsSystem.notTrigger (es.getD ij.2 default)) = false) →
    (ps.foldl PhysicsSystem.processPair (es, acc)).1 = es ∧
    (∀ ev ∈ acc, ev ∈ (ps.foldl PhysicsSystem.processPair (es, acc)).2) ∧
    (∀ ij ∈ ps,
      PhysicsSystem.isColliding (es.getD ij.1 default) (es.getD ij.2 default) = true →
      ∀ ev ∈ PhysicsSystem.pairEvents (es.getD ij.1 default) (es.getD ij.2 default),
        ev ∈ (ps.foldl PhysicsSystem.processPair (es, acc)).2) := by
  induction ps with
  | nil =>
      intro acc _
      exact ⟨rfl, fun ev hv => hv, fun ij hij => absurd hij (List.not_mem_nil ij)⟩
  | cons ij ps ih =>
      intro acc h
      by_cases hc : PhysicsSystem.isColliding (es.getD ij.1 default)
          (es.getD ij.2 default) = true
      · have htr := h ij (List.mem_cons_self ij ps) hc
        rw [List.foldl_cons, processPair_trigger es acc ij hc htr]
        obtain ⟨hstore, hacc, hpairs⟩ :=
          ih (acc ++ PhysicsSystem.pairEvents (es.getD ij.1 default)
            (es.getD ij.2 default))
            (fun kl hkl => h kl (List.mem_cons_of_mem _ hkl))
        refine ⟨hstore, fun ev hev => hacc ev (List.mem_append_left _ hev), ?_⟩
        intro kl hkl hckl ev hev
        rcases List.mem_cons.mp hkl with rfl | hmem
        · exact hacc ev (List.mem_append_right _ hev)
        · exact hpairs kl hmem hckl ev hev
      · rw [List.foldl_cons, processPair_not_colliding es acc ij hc]
        obtain ⟨hstore, hacc, hpairs⟩ :=
          ih acc (fun kl hkl => h kl (List.mem_cons_of_mem _ hkl))
        refine ⟨hstore, hacc, ?_⟩
        intro kl hkl hckl ev hev
        rcases List.mem_cons.mp hkl with rfl | hmem
        · exact absurd hckl hc
        · exact hpairs kl hmem hckl ev hev

/-- C5 counterexample: trigBoxA overlaps the trigger trigBoxB, yet the
collision pass over [trigBoxA, trigBoxB, trigBoxC] moves trigBoxA from
(0,0) to (-1/2,0), because trigBoxA is also in a non-trigger colliding
pair with trigBoxC: a member of a trigger pair CAN have its position
modified by the collision pass. -/
theorem C5_counterexample_trigger_member_moved :
    PhysicsSystem.isColliding trigBoxA trigBoxB = true ∧
    (∃ cB, trigBoxB.collider = some cB ∧ cB.isTrigger = true) ∧
    trigBoxA.transform =
      some { position := ⟨0, 0⟩, rotation := 0, scale := ⟨1, 1⟩ } ∧
    ((PhysicsSystem.checkCollisions [trigBoxA, trigBoxB, trigBoxC]).1.getD 0
        default).transform =
      some { position := ⟨-(1/2), 0⟩, rotation := 0, scale := ⟨1, 1⟩ } ∧
    ({ position := ⟨-(1/2), 0⟩, rotation := 0, scale := ⟨1, 1⟩ }
        : TransformComponent ℚ) ≠
      { position := ⟨0, 0⟩, rotation := 0, scale := ⟨1, 1⟩ } := by
  refine ⟨by norm_num [PhysicsSystem.isColliding, trigBoxA, trigBoxB, colBox],
    ⟨_, rfl, rfl⟩, rfl, ?_, by simp⟩
  norm_num [PhysicsSystem.checkCollisions, PhysicsSystem.collidableIdxs,
    PhysicsSystem.collidable, PhysicsSystem.allPairs, PhysicsSystem.processPair,
    PhysicsSystem.pairEvents, PhysicsSystem.notTrigger,
    PhysicsSystem.resolveCollision, PhysicsSystem.overlapXc,
    PhysicsSystem.overlapYc, PhysicsSystem.withPos, PhysicsSystem.stopVelX,
    PhysicsSystem.stopVelY, PhysicsSystem.isColliding,
    trigBoxA, trigBoxB, trigBoxC, colBox, List.range_succ]

/-- C5 (amended): in a collision pass in which every colliding
collidable pair has at least one trigger, the callbacks of every
colliding pair are invoked (each side that carries one, with the other
entity), and no entity's position is modified: the store is returned
unchanged.  (The handling of a trigger pair itself never repositions;
a pass containing a non-trigger colliding pair can still move a
trigger-pair member, as the counterexample shows.) -/
theorem C5_amended_trigger_pairs_report_but_never_reposition
    (es : List (Entity ℚ))
    (h : ∀ ij ∈ PhysicsSystem.allPairs (PhysicsSystem.collidableIdxs es),
      PhysicsSystem.isColliding (es.getD ij.1 default) (es.getD ij.2 default) = true →
      (PhysicsSystem.notTrigger (es.getD ij.1 default) &&
       PhysicsSystem.notTrigger (es.getD ij.2 default)) = false) :
    (PhysicsSystem.checkCollisions es).1 = es ∧
    (∀ ij ∈ PhysicsSystem.allPairs (PhysicsSystem.collidableIdxs es),
      PhysicsSystem.isColliding (es.getD ij.1 default) (es.getD ij.2 default) = true →
      ∀ ev ∈ PhysicsSystem.pairEvents (es.getD ij.1 default) (es.getD ij.2 default),
        ev ∈ (PhysicsSystem.checkCollisions es).2) := by
  obtain ⟨h1, -, h3⟩ := checkCollisions_trigger_aux es
    (PhysicsSystem.allPairs (PhysicsSystem.collidableIdxs es)) [] h
  exact ⟨h1, h3⟩

/-- Witness for C5: the pass over the colliding pair trigWitA,
trigWitB (second a trigger, both with callbacks) leaves the store
unchanged and logs both callback invocations. -/
theorem C5_amended_witness :
    (PhysicsSystem.checkCollisions [trigWitA, trigWitB]).1 = [trigWitA, trigWitB] ∧
    ("wa", "wb") ∈ (PhysicsSystem.checkCollisions [trigWitA, trigWitB]).2 ∧
    ("wb", "wa") ∈ (PhysicsSystem.checkCollisions [trigWitA, trigWitB]).2 := by
  have hpair : ∀ ij ∈ PhysicsSystem.allPairs
      (PhysicsSystem.collidableIdxs [trigWitA, trigWitB]), ij = (0, 1) := by
    intro ij hij
    simpa [PhysicsSystem.allPairs, PhysicsSystem.collidableIdxs,
      PhysicsSystem.collidable, trigWitA, trigWitB, colBox,
      List.range_succ] using hij
  obtain ⟨h1, h2⟩ := C5_amended_trigger_pairs_report_but_never_reposition
    [trigWitA, trigWitB]
    (by
      intro ij hij _
      rw [hpair ij hij]
      norm_num [PhysicsSystem.notTrigger, trigWitA, trigWitB, colBox])
  have hmem : (0, 1) ∈ PhysicsSystem.allPairs
      (PhysicsSystem.collidableIdxs [trigWitA, trigWitB]) := by
    norm_num [PhysicsSystem.allPairs, PhysicsSystem.collidableIdxs,
      PhysicsSystem.collidable, trigWitA, trigWitB, colBox, List.range_succ]
  have hcol : PhysicsSystem.isColliding
      (([trigWitA, trigWitB] : List (Entity ℚ)).getD 0 default)
      (([trigWitA, trigWitB] : List (Entity ℚ)).getD 1 default) = true := by
    norm_num [PhysicsSystem.isColliding, trigWitA, trigWitB, colBox, List.getD]
  refine ⟨h1, ?_, ?_⟩
  · exact h2 (0, 1) hmem hcol ("wa", "wb")
      (by norm_num [PhysicsSystem.pairEvents, trigWitA, trigWitB, colBox, List.getD])
  · exact h2 (0, 1) hmem hcol ("wb", "wa")
      (by norm_num [PhysicsSystem.pairEvents, trigWitA, trigWitB, colBox, List.getD])

/-- The enemy reaction of the scene collision pass never touches the
player's transform (it only rewrites health, score, flames, state). -/
theorem applyEnemyHit_player_transform (st : MainScene.SceneState) :
    (MainScene.applyEnemyHit st).player.transform = st.player.transform := by
  unfold MainScene.applyEnemyHit
  cases h : st.player.health with
  | none => simp [h]
  | some hl =>
      simp only [h]
      split_ifs <;> rfl

/-- The pickup reaction of the scene collision pass never touches the
player's transform. -/
theorem applyPickup_player_transform (st : MainScene.SceneState) :
    (MainScene.applyPickup st).player.transform = st.player.transform := by
  unfold MainScene.applyPickup
  cases h : st.player.health with
  | none => simp [h]
  | some hl => simp [h]

/-- One scene collision step never touches the player's transform. -/
theorem handleOne_player_transform (st : MainScene.SceneState) (e : Entity ℚ) :
    (MainScene.handleOne st e).1.player.transform = st.player.transform := by
  simp only [MainScene.handleOne]
  split_ifs <;>
  simp [applyEnemyHit_player_transform, applyPickup_player_transform]

/-- The scene collision fold never touches the player's transform. -/
theorem handleFold_player_transform (es : List (Entity ℚ)) :
    ∀ (st : MainScene.SceneState) (acc : List (Entity ℚ)),
    (MainScene.handleFold st acc es).1.player.transform =
      st.player.transform := by
  induction es with
  | nil => intro st acc; rfl
  | cons e es ih =>
      intro st acc
      simp only [MainScene.handleFold]
      rw [ih]
      exact handleOne_player_transform st e

/-- The surviving entities of the scene collision fold are a sublist
of the processed snapshot, appended unchanged to the accumulator. -/
theorem handleFold_sublist (es : List (Entity ℚ)) :
    ∀ (st : MainScene.SceneState) (acc : List (Entity ℚ)),
    ∃ tail, (MainScene.handleFold st acc es).2 = acc ++ tail ∧
      List.Sublist tail es := by
  induction es with
  | nil =>
      intro st acc
      exact ⟨[], by simp [MainScene.handleFold], List.nil_sublist []⟩
  | cons e es ih =>
      intro st acc
      simp only [MainScene.handleFold]
      cases hk : (MainScene.handleOne st e).2 with
      | true =>
          obtain ⟨tail, heq, hsub⟩ := ih (MainScene.handleOne st e).1 (acc ++ [e])
          refine ⟨e :: tail, ?_, List.Sublist.cons₂ e hsub⟩
          simpa [List.append_assoc] using heq
      | false =>
          obtain ⟨tail, heq, hsub⟩ := ih (MainScene.handleOne st e).1 acc
          refine ⟨tail, ?_, List.Sublist.cons e hsub⟩
          simpa using heq

/-- When no active entity of the snapshot overlaps the player, the
scene collision fold is the identity. -/
theorem handleFold_no_collision (es : List (Entity ℚ)) :
    ∀ (st : MainScene.SceneState) (acc : List (Entity ℚ)),
    (∀ e ∈ es, e.active = true →
      PhysicsSystem.isColliding st.player e = false) →
    MainScene.handleFold st acc es = (st, acc ++ es) := by
  induction es with
  | nil => intro st acc _; simp [MainScene.handleFold]
  | cons e es ih =>
      intro st acc h
      have hone : MainScene.handleOne st e = (st, true) := by
        unfold MainScene.handleOne
        by_cases hid : e.id = "player" ∨ e.active = false
        · rw [if_pos hid]
        · have hact : e.active = true := by
            push_neg at hid
            exact Bool.ne_false_iff.mp hid.2
          have hcol := h e (List.mem_cons_self e es) hact
          rw [if_neg hid, if_neg (by rw [hcol]; exact Bool.false_ne_true)]
      have hstep : MainScene.handleFold st acc (e :: es) =
          MainScene.handleFold st (acc ++ [e]) es := by
        simp [MainScene.handleFold, hone]
      rw [hstep, ih st (acc ++ [e]) (fun x hx hax => h x (List.mem_cons_of_mem _ hx) hax),
        List.append_assoc]
      rfl

/-- C10: the scene collision pass reacts only to player-other pairs:
the player's transform is unchanged, every surviving entity is an
unchanged member of the original snapshot (entities are only ever
removed, never repositioned), and when no active entity overlaps the
player the pass leaves the whole scene state unchanged, regardless of
overlaps among non-player entities. -/
theorem C10_handleCollisions_player_pairs_only (s : MainScene.SceneState) :
    (MainScene.handleCollisions s).player.transform = s.player.transform ∧
    List.Sublist (MainScene.handleCollisions s).others s.others ∧
    ((∀ e ∈ s.others, e.active = true →
        PhysicsSystem.isColliding s.player e = false) →
      MainScene.handleCollisions s = s) := by
  refine ⟨?_, ?_, ?_⟩
  · exact handleFold_player_transform s.others s []
  · obtain ⟨tail, heq, hsub⟩ := handleFold_sublist s.others s []
    have h2 : (MainScene.handleCollisions s).others = tail := by
      unfold MainScene.handleCollisions
      simpa using heq
    rw [h2]
    exact hsub
  · intro h
    unfold MainScene.handleCollisions
    rw [handleFold_no_collision s.others s [] h]
    rfl

/-- Test fixture: a scene whose two enemies overlap each other but not
the player. -/
def c10Scene : MainScene.SceneState :=
  { player := EntityFactory.createPlayer 0 0,
    others := [EntityFactory.createEnemy "e1" 200 200,
               EntityFactory.createEnemy "e2" 210 210],
    score := 0, flamesExtinguished := 0, gameState := GameState.PLAYING }

/-- Witness for C10: the two enemies of c10Scene overlap each other,
neither overlaps the player, and the collision pass leaves the scene
exactly unchanged: no damage, no score change, no removal, no
separation. -/
theorem C10_witness :
    PhysicsSystem.isColliding (EntityFactory.createEnemy "e1" 200 200)
      (EntityFactory.createEnemy "e2" 210 210) = true ∧
    MainScene.handleCollisions c10Scene = c10Scene := by
  refine ⟨by norm_num [PhysicsSystem.isColliding, EntityFactory.createEnemy,
    config.enemySize], ?_⟩
  refine (C10_handleCollisions_player_pairs_only c10Scene).2.2 ?_
  intro e he _
  have hmem : e = EntityFactory.createEnemy "e1" 200 200 ∨
      e = EntityFactory.createEnemy "e2" 210 210 := by
    simpa [c10Scene] using he
  rcases hmem with rfl | rfl <;>
  norm_num [PhysicsSystem.isColliding, EntityFactory.createEnemy,
    EntityFactory.createPlayer, config.enemySize, config.playerSize, c10Scene]


/-- Test fixture: the initialised player with its health current value
replaced (the state of the player after some number of hits). -/
def pWith (c : ℚ) : Entity ℚ :=
  { MainScene.initPlayer with
    health := some { current := c, max := 100, onDeath := none } }

/-- Test fixture: ten hostile entities all overlapping the player's
spawn position at the canvas centre (304, 164). -/
def c2Enemies : List (Entity ℚ) :=
  [EntityFactory.createEnemy "e1" 304 164, EntityFactory.createEnemy "e2" 304 164,
   EntityFactory.createEnemy "e3" 304 164, EntityFactory.createEnemy "e4" 304 164,
   EntityFactory.createEnemy "e5" 304 164, EntityFactory.createEnemy "e6" 304 164,
   EntityFactory.createEnemy "e7" 304 164, EntityFactory.createEnemy "e8" 304 164,
   EntityFactory.createEnemy "e9" 304 164, EntityFactory.createEnemy "e10" 304 164]

/-- Test fixture: the Playing scene mid-pass, with player health c,
score sc and flame counter fl. -/
def c2At (c sc fl : ℚ) : MainScene.SceneState :=
  { player := pWith c, others := c2Enemies,
    score := sc, flamesExtinguished := fl, gameState := GameState.PLAYING }

/-- Test fixture: a freshly initialised Playing scene whose player
takes ten hostile hits in a single collision pass. -/
def c2Scene : MainScene.SceneState :=
  { player := MainScene.initPlayer, others := c2Enemies,
    score := 0, flamesExtinguished := 0, gameState := GameState.PLAYING }

/-- One hostile hit at health above the damage threshold: subtract 10
health, add 20 score, count the flame, remove the hostile. -/
theorem c2_hit_step (c sc fl : ℚ) (id : String) (hid : ¬ id = "player")
    (h10 : 10 < c) :
    MainScene.handleOne (c2At c sc fl) (EntityFactory.createEnemy id 304 164) =
      (c2At (c - 10) (sc + 20) (fl + 1), false) := by
  norm_num [MainScene.handleOne, MainScene.applyEnemyHit, MainScene.applyPickup,
    PhysicsSystem.isColliding, EntityFactory.createEnemy, c2At, pWith,
    MainScene.initPlayer, MainScene.installDeathCallback,
    EntityFactory.createPlayer, config.enemyColor, config.pickupColor,
    config.playerColor, config.enemyDamage, config.playerMaxHealth,
    config.playerSize, config.enemySize, config.friction, hid,
    show ¬(c - 10 ≤ 0) from by linarith]
  all_goals simp

/-- The tenth hostile hit: health reaches exactly 0, the onDeath
callback slot is none so nothing fires, and the game state is left
untouched. -/
theorem c2_hit_last (sc fl : ℚ) (id : String) (hid : ¬ id = "player") :
    MainScene.handleOne (c2At 10 sc fl) (EntityFactory.createEnemy id 304 164) =
      (c2At 0 (sc + 20) (fl + 1), false) := by
  norm_num [MainScene.handleOne, MainScene.applyEnemyHit, MainScene.applyPickup,
    PhysicsSystem.isColliding, EntityFactory.createEnemy, c2At, pWith,
    MainScene.initPlayer, MainScene.installDeathCallback,
    EntityFactory.createPlayer, config.enemyColor, config.pickupColor,
    config.playerColor, config.enemyDamage, config.playerMaxHealth,
    config.playerSize, config.enemySize, config.friction, hid]
  all_goals simp

/-- Fold step for one hostile hit above the damage threshold. -/
theorem c2_fold_step (c sc fl : ℚ) (id : String)
    (rest acc : List (Entity ℚ)) (hid : ¬ id = "player") (h10 : 10 < c) :
    MainScene.handleFold (c2At c sc fl) acc
      (EntityFactory.createEnemy id 304 164 :: rest) =
    MainScene.handleFold (c2At (c - 10) (sc + 20) (fl + 1)) acc rest := by
  simp only [MainScene.handleFold]
  rw [c2_hit_step c sc fl id hid h10]
  rfl

/-- Fold step for the tenth hostile hit. -/
theorem c2_fold_last (sc fl : ℚ) (id : String)
    (rest acc : List (Entity ℚ)) (hid : ¬ id = "player") :
    MainScene.handleFold (c2At 10 sc fl) acc
      (EntityFactory.createEnemy id 304 164 :: rest) =
    MainScene.handleFold (c2At 0 (sc + 20) (fl + 1)) acc rest := by
  simp only [MainScene.handleFold]
  rw [c2_hit_last sc fl id hid]
  rfl

/-- C2: the player created by MainScene.init carries NO death callback
(createPlayer does not set one, and init lines 96-101 only replace an
already present callback), so when ten hostile hits drive the health
from 100 to exactly 0 during a Playing-state collision pass, the death
callback never fires and the game state remains PLAYING instead of
transitioning to GAME_OVER. -/
theorem C2_health_zero_without_game_over :
    MainScene.initPlayer.health =
      some { current := 100, max := 100, onDeath := none } ∧
    (∃ h, (MainScene.handleCollisions c2Scene).player.health = some h ∧
      h.current = 0) ∧
    (MainScene.handleCollisions c2Scene).gameState = GameState.PLAYING ∧
    GameState.PLAYING ≠ GameState.GAME_OVER := by
  have hfold : MainScene.handleFold (c2At 100 0 0) [] c2Enemies =
      (c2At 0 200 10, []) := by
    show MainScene.handleFold (c2At 100 0 0) []
      (EntityFactory.createEnemy "e1" 304 164 ::
        [EntityFactory.createEnemy "e2" 304 164,
         EntityFactory.createEnemy "e3" 304 164,
         EntityFactory.createEnemy "e4" 304 164,
         EntityFactory.createEnemy "e5" 304 164,
         EntityFactory.createEnemy "e6" 304 164,
         EntityFactory.createEnemy "e7" 304 164,
         EntityFactory.createEnemy "e8" 304 164,
         EntityFactory.createEnemy "e9" 304 164,
         EntityFactory.createEnemy "e10" 304 164]) = (c2At 0 200 10, [])
    rw [c2_fold_step _ _ _ _ _ _ (by simp) (by norm_num),
      c2_fold_step _ _ _ _ _ _ (by simp) (by norm_num),
      c2_fold_step _ _ _ _ _ _ (by simp) (by norm_num),
      c2_fold_step _ _ _ _ _ _ (by simp) (by norm_num),
      c2_fold_step _ _ _ _ _ _ (by simp) (by norm_num),
      c2_fold_step _ _ _ _ _ _ (by simp) (by norm_num),
      c2_fold_step _ _ _ _ _ _ (by simp) (by norm_num),
      c2_fold_step _ _ _ _ _ _ (by simp) (by norm_num),
      c2_fold_step _ _ _ _ _ _ (by simp) (by norm_num)]
    rw [show (((((((((100:ℚ) - 10) - 10) - 10) - 10) - 10) - 10) - 10) - 10) - 10
        = 10 from by norm_num]
    rw [c2_fold_last _ _ _ _ _ (by simp)]
    simp only [MainScene.handleFold]
    norm_num [c2At]
  have hfold2 : MainScene.handleFold c2Scene [] c2Scene.others =
      (c2At 0 200 10, []) := hfold
  have hcoll : MainScene.handleCollisions c2Scene =
      { player := pWith 0, others := [], score := 200,
        flamesExtinguished := 10, gameState := GameState.PLAYING } := by
    unfold MainScene.handleCollisions
    rw [hfold2]
    rfl
  refine ⟨rfl, ⟨{ current := 0, max := 100, onDeath := none }, ?_, rfl⟩, ?_, by simp⟩
  · rw [hcoll]
    rfl
  · rw [hcoll]

/-- C6: for every active entity with transform and physics whose speed
after the acceleration and friction steps exceeds
config.physics.maxVelocity, the velocity used by the integration step
(the clamped velocity, which integration does not change) has norm
exactly maxVelocity and is a positive multiple of the unclamped
velocity (direction unchanged); when the integrated position triggers
no boundary clamp, that is exactly the velocity update returns. -/
theorem C6_velocity_clamped_to_max (e : Entity ℝ) (t : TransformComponent ℝ)
    (p : PhysicsComponent ℝ) (dt : ℝ)
    (hact : e.active = true) (ht : e.transform = some t)
    (hp : e.physics = some p)
    (hfast : Real.sqrt
      ((PhysicsSystem.Integrator.applyFriction
         (PhysicsSystem.Integrator.applyAcceleration p dt)).velocity.x ^ 2 +
       (PhysicsSystem.Integrator.applyFriction
         (PhysicsSystem.Integrator.applyAcceleration p dt)).velocity.y ^ 2) >
      config.maxVelocity) :
    Real.sqrt
      ((PhysicsSystem.Integrator.clampVelocity
         (PhysicsSystem.Integrator.applyFriction
           (PhysicsSystem.Integrator.applyAcceleration p dt))).velocity.x ^ 2 +
       (PhysicsSystem.Integrator.clampVelocity
         (PhysicsSystem.Integrator.applyFriction
           (PhysicsSystem.Integrator.applyAcceleration p dt))).velocity.y ^ 2) =
      config.maxVelocity ∧
    (∃ c : ℝ, 0 < c ∧
      (PhysicsSystem.Integrator.clampVelocity
        (PhysicsSystem.Integrator.applyFriction
          (PhysicsSystem.Integrator.applyAcceleration p dt))).velocity.x =
        c * (PhysicsSystem.Integrator.applyFriction
          (PhysicsSystem.Integrator.applyAcceleration p dt)).velocity.x ∧
      (PhysicsSystem.Integrator.clampVelocity
        (PhysicsSystem.Integrator.applyFriction
          (PhysicsSystem.Integrator.applyAcceleration p dt))).velocity.y =
        c * (PhysicsSystem.Integrator.applyFriction
          (PhysicsSystem.Integrator.applyAcceleration p dt)).velocity.y) ∧
    (∀ t1 : TransformComponent ℝ,
      t1 = PhysicsSystem.Integrator.integratePosition t
        (PhysicsSystem.Integrator.clampVelocity
          (PhysicsSystem.Integrator.applyFriction
            (PhysicsSystem.Integrator.applyAcceleration p dt))) dt →
      0 ≤ t1.position.x →
      t1.position.x ≤ config.canvasWidth - PhysicsSystem.Integrator.boundsSize e →
      0 ≤ t1.position.y →
      t1.position.y ≤ config.canvasHeight - PhysicsSystem.Integrator.boundsSize e →
      PhysicsSystem.Integrator.updateEntity e dt =
        { e with transform := some t1,
                 physics := some (PhysicsSystem.Integrator.clampVelocity
                   (PhysicsSystem.Integrator.applyFriction
                     (PhysicsSystem.Integrator.applyAcceleration p dt))) }) := by
  set p1 := PhysicsSystem.Integrator.applyFriction
    (PhysicsSystem.Integrator.applyAcceleration p dt) with hp1
  set s := Real.sqrt (p1.velocity.x ^ 2 + p1.velocity.y ^ 2) with hs
  have hm : (0:ℝ) < config.maxVelocity := by norm_num [config.maxVelocity]
  have hs0 : 0 < s := lt_trans hm hfast
  have hclamp : PhysicsSystem.Integrator.clampVelocity p1 =
      { p1 with velocity := ⟨p1.velocity.x / s * config.maxVelocity,
                            p1.velocity.y / s * config.maxVelocity⟩ } := by
    simp only [PhysicsSystem.Integrator.clampVelocity]
    rw [if_pos hfast]
  have hsum : p1.velocity.x ^ 2 + p1.velocity.y ^ 2 = s ^ 2 :=
    (Real.sq_sqrt (by positivity)).symm
  refine ⟨?_, ⟨config.maxVelocity / s, div_pos hm hs0, ?_, ?_⟩, ?_⟩
  · rw [hclamp]
    have harg : (p1.velocity.x / s * config.maxVelocity) ^ 2 +
        (p1.velocity.y / s * config.maxVelocity) ^ 2 =
        (p1.velocity.x ^ 2 + p1.velocity.y ^ 2) * config.maxVelocity ^ 2 / s ^ 2 := by
      ring
    simp only
    rw [harg, hsum]
    rw [show s ^ 2 * config.maxVelocity ^ 2 / s ^ 2 = config.maxVelocity ^ 2 by
      field_simp]
    exact Real.sqrt_sq (le_of_lt hm)
  · rw [hclamp]
    simp only
    ring
  · rw [hclamp]
    simp only
    ring
  · intro t1 ht1 hx0 hx1 hy0 hy1
    obtain ⟨eid, eact, etr, eph, esp, ecl, ehl⟩ := e
    simp only at ht hp hact hx1 hy1 ⊢
    subst ht hp hact ht1
    simp only [PhysicsSystem.Integrator.updateEntity,
      PhysicsSystem.Integrator.keepInBounds]
    rw [if_neg (by simp)]
    have hxc1 : ¬ (PhysicsSystem.Integrator.integratePosition t
        (PhysicsSystem.Integrator.clampVelocity p1) dt).position.x < 0 :=
      not_lt.mpr hx0
    have hxc2 : ¬ (PhysicsSystem.Integrator.integratePosition t
        (PhysicsSystem.Integrator.clampVelocity p1) dt).position.x >
        config.canvasWidth - PhysicsSystem.Integrator.boundsSize
          ⟨eid, true, some t, some p, esp, ecl, ehl⟩ :=
      not_lt.mpr hx1
    have hyc1 : ¬ (PhysicsSystem.Integrator.integratePosition t
        (PhysicsSystem.Integrator.clampVelocity p1) dt).position.y < 0 :=
      not_lt.mpr hy0
    have hyc2 : ¬ (PhysicsSystem.Integrator.integratePosition t
        (PhysicsSystem.Integrator.clampVelocity p1) dt).position.y >
        config.canvasHeight - PhysicsSystem.Integrator.boundsSize
          ⟨eid, true, some t, some p, esp, ecl, ehl⟩ :=
      not_lt.mpr hy1
    rw [if_neg hxc1, if_neg hxc1, if_neg hxc2, if_neg hxc2,
      if_neg hyc1, if_neg hyc1, if_neg hyc2, if_neg hyc2]

/-- Test fixture: a fast entity for the velocity-clamp witness. -/
def c6Phys : PhysicsComponent ℝ :=
  { velocity := ⟨600, 800⟩, acceleration := ⟨0, 0⟩, mass := 1, friction := 1 }

def c6Entity : Entity ℝ :=
  { id := "c6", active := true,
    transform := some { position := ⟨100, 100⟩, rotation := 0, scale := ⟨1, 1⟩ },
    physics := some c6Phys,
    sprite := some { width := 32, height := 32, color := "c" },
    collider := none, health := none }

/-- Witness for C6: an entity with velocity (600, 800) (speed 1000)
has its post-clamp speed equal to exactly 500. -/
theorem C6_witness :
    Real.sqrt
      ((PhysicsSystem.Integrator.clampVelocity
         (PhysicsSystem.Integrator.applyFriction
           (PhysicsSystem.Integrator.applyAcceleration c6Phys 0.1))).velocity.x ^ 2 +
       (PhysicsSystem.Integrator.clampVelocity
         (PhysicsSystem.Integrator.applyFriction
           (PhysicsSystem.Integrator.applyAcceleration c6Phys 0.1))).velocity.y ^ 2) =
      config.maxVelocity := by
  have hv : (PhysicsSystem.Integrator.applyFriction
      (PhysicsSystem.Integrator.applyAcceleration c6Phys 0.1)).velocity =
      ⟨600, 800⟩ := by
    simp only [PhysicsSystem.Integrator.applyFriction,
      PhysicsSystem.Integrator.applyAcceleration, c6Phys]
    norm_num
  have hfast : Real.sqrt
      ((PhysicsSystem.Integrator.applyFriction
         (PhysicsSystem.Integrator.applyAcceleration c6Phys 0.1)).velocity.x ^ 2 +
       (PhysicsSystem.Integrator.applyFriction
         (PhysicsSystem.Integrator.applyAcceleration c6Phys 0.1)).velocity.y ^ 2) >
      config.maxVelocity := by
    rw [hv]
    rw [show ((⟨600, 800⟩ : Vec2 ℝ).x ^ 2 + (⟨600, 800⟩ : Vec2 ℝ).y ^ 2)
        = 1000 ^ 2 by norm_num]
    rw [Real.sqrt_sq (by norm_num)]
    norm_num [config.maxVelocity]
  exact (C6_velocity_clamped_to_max c6Entity
    { position := ⟨100, 100⟩, rotation := 0, scale := ⟨1, 1⟩ } c6Phys 0.1
    rfl rfl rfl hfast).1

/-- Behaviour of the boundary clamp: for a footprint size at most 360,
the clamped position lies in [0, 640 - size] x [0, 360 - size], and
each axis whose pre-clamp coordinate was out of range has its velocity
zeroed. -/
theorem keepInBounds_spec (t : TransformComponent ℝ) (p : PhysicsComponent ℝ)
    (size : ℝ) (hsize : size ≤ 360) :
    0 ≤ (PhysicsSystem.Integrator.keepInBounds t p size).1.position.x ∧
    (PhysicsSystem.Integrator.keepInBounds t p size).1.position.x ≤
      config.canvasWidth - size ∧
    0 ≤ (PhysicsSystem.Integrator.keepInBounds t p size).1.position.y ∧
    (PhysicsSystem.Integrator.keepInBounds t p size).1.position.y ≤
      config.canvasHeight - size ∧
    (t.position.x < 0 →
      (PhysicsSystem.Integrator.keepInBounds t p size).2.velocity.x = 0) ∧
    (t.position.x > config.canvasWidth - size →
      (PhysicsSystem.Integrator.keepInBounds t p size).2.velocity.x = 0) ∧
    (t.position.y < 0 →
      (PhysicsSystem.Integrator.keepInBounds t p size).2.velocity.y = 0) ∧
    (t.position.y > config.canvasHeight - size →
      (PhysicsSystem.Integrator.keepInBounds t p size).2.velocity.y = 0) := by
  simp only [PhysicsSystem.Integrator.keepInBounds, config.canvasWidth,
    config.canvasHeight]
  split_ifs with h1 h2 h3 h4 h5 h6 h7 h8 <;>
  refine ⟨?_, ?_, ?_, ?_, ?_, ?_, ?_, ?_⟩ <;>
  first
    | linarith
    | (intro h; first | rfl | linarith)

/-- C7 (amended): for every active entity with transform, physics and
a SQUARE sprite footprint of side at most 360, after
PhysicsSystem.update the entity's footprint (width by height) lies
within [0, canvas width] x [0, canvas height], and every axis whose
integrated coordinate was out of range ends with velocity exactly 0.
(The code clamps BOTH axes with the sprite WIDTH, so for a non-square
sprite the claim fails, as the counterexample shows.) -/
theorem C7_amended_boundary_containment (e : Entity ℝ)
    (t : TransformComponent ℝ) (p : PhysicsComponent ℝ)
    (sp : SpriteComponent ℝ) (dt : ℝ)
    (hact : e.active = true) (ht : e.transform = some t)
    (hp : e.physics = some p) (hs : e.sprite = some sp)
    (hsq : sp.width = sp.height) (hle : sp.width ≤ 360) :
    ∃ t' p',
      PhysicsSystem.Integrator.updateEntity e dt =
        { e with transform := some t', physics := some p' } ∧
      0 ≤ t'.position.x ∧ t'.position.x + sp.width ≤ config.canvasWidth ∧
      0 ≤ t'.position.y ∧ t'.position.y + sp.height ≤ config.canvasHeight ∧
      (∀ t1 : TransformComponent ℝ,
        t1 = PhysicsSystem.Integrator.integratePosition t
          (PhysicsSystem.Integrator.clampVelocity
            (PhysicsSystem.Integrator.applyFriction
              (PhysicsSystem.Integrator.applyAcceleration p dt))) dt →
        (t1.position.x < 0 → p'.velocity.x = 0) ∧
        (t1.position.x > config.canvasWidth - sp.width → p'.velocity.x = 0) ∧
        (t1.position.y < 0 → p'.velocity.y = 0) ∧
        (t1.position.y > config.canvasHeight - sp.width → p'.velocity.y = 0)) := by
  obtain ⟨eid, eact, etr, eph, esp, ecl, ehl⟩ := e
  simp only at ht hp hs hact
  subst ht hp hs hact
  set p1 := PhysicsSystem.Integrator.applyFriction
    (PhysicsSystem.Integrator.applyAcceleration p dt) with hp1
  set t1 := PhysicsSystem.Integrator.integratePosition t
    (PhysicsSystem.Integrator.clampVelocity p1) dt with ht1
  have hbs : PhysicsSystem.Integrator.boundsSize
      ⟨eid, true, some t, some p, some sp, ecl, ehl⟩ = sp.width := rfl
  have hred : PhysicsSystem.Integrator.updateEntity
      ⟨eid, true, some t, some p, some sp, ecl, ehl⟩ dt =
      { id := eid, active := true,
        transform := some (PhysicsSystem.Integrator.keepInBounds t1
          (PhysicsSystem.Integrator.clampVelocity p1) sp.width).1,
        physics := some (PhysicsSystem.Integrator.keepInBounds t1
          (PhysicsSystem.Integrator.clampVelocity p1) sp.width).2,
        sprite := some sp, collider := ecl, health := ehl } := rfl
  obtain ⟨hx0, hx1, hy0, hy1, hvx1, hvx2, hvy1, hvy2⟩ :=
    keepInBounds_spec t1 (PhysicsSystem.Integrator.clampVelocity p1) sp.width hle
  refine ⟨(PhysicsSystem.Integrator.keepInBounds t1
      (PhysicsSystem.Integrator.clampVelocity p1) sp.width).1,
    (PhysicsSystem.Integrator.keepInBounds t1
      (PhysicsSystem.Integrator.clampVelocity p1) sp.width).2,
    hred, hx0, by linarith, hy0, ?_, ?_⟩
  · rw [← hsq]
    linarith
  · intro t2 ht2
    subst ht2
    exact ⟨hvx1, hvx2, hvy1, hvy2⟩

/-- Test fixture: an entity with a non-square 32-by-100 sprite resting
near the bottom edge. -/
def c7Entity : Entity ℝ :=
  { id := "c7", active := true,
    transform := some { position := ⟨100, 340⟩, rotation := 0, scale := ⟨1, 1⟩ },
    physics := some { velocity := ⟨0, 0⟩, acceleration := ⟨0, 0⟩,
                      mass := 1, friction := 1 },
    sprite := some { width := 32, height := 100, color := "c" },
    collider := none, health := none }

/-- C7 counterexample: the boundary clamp uses the sprite WIDTH on
both axes, so the 32-by-100 entity at rest at (100, 340) is clamped to
y = 360 - 32 = 328, leaving its footprint bottom at 328 + 100 = 428,
outside [0, 360]: the footprint (width by height) does NOT stay within
the world. -/
theorem C7_counterexample_tall_sprite_escapes :
    (∃ sp, c7Entity.sprite = some sp ∧ sp.width = 32 ∧ sp.height = 100) ∧
    (PhysicsSystem.Integrator.updateEntity c7Entity 0).transform =
      some { position := ⟨100, 328⟩, rotation := 0, scale := ⟨1, 1⟩ } ∧
    (328 : ℝ) + 100 > config.canvasHeight := by
  refine ⟨⟨_, rfl, rfl, rfl⟩, ?_, by norm_num [config.canvasHeight]⟩
  have hv : PhysicsSystem.Integrator.clampVelocity
      (PhysicsSystem.Integrator.applyFriction
        (PhysicsSystem.Integrator.applyAcceleration
          { velocity := ⟨0, 0⟩, acceleration := ⟨0, 0⟩, mass := 1, friction := 1 }
          0)) =
      { velocity := ⟨0, 0⟩, acceleration := ⟨0, 0⟩, mass := 1, friction := 1 } := by
    simp only [PhysicsSystem.Integrator.clampVelocity,
      PhysicsSystem.Integrator.applyFriction,
      PhysicsSystem.Integrator.applyAcceleration]
    norm_num [Real.sqrt_zero, config.maxVelocity]
  simp only [PhysicsSystem.Integrator.updateEntity, c7Entity, hv]
  rw [if_neg (by simp)]
  simp only [PhysicsSystem.Integrator.integratePosition,
    PhysicsSystem.Integrator.keepInBounds, PhysicsSystem.Integrator.boundsSize]
  norm_num [config.canvasWidth, config.canvasHeight]

/-- Witness for C7: a square 32-by-32 entity pushed past the right and
top edges is returned with its footprint inside the world. -/
theorem C7_amended_witness :
    ∃ t' p',
      PhysicsSystem.Integrator.updateEntity
        { id := "w7", active := true,
          transform := some { position := ⟨700, -50⟩, rotation := 0,
                              scale := ⟨1, 1⟩ },
          physics := some { velocity := ⟨0, 0⟩, acceleration := ⟨0, 0⟩,
                            mass := 1, friction := 1 },
          sprite := some { width := 32, height := 32, color := "w" },
          collider := none, health := none } 0 =
        { id := "w7", active := true,
          transform := some t', physics := some p',
          sprite := some { width := 32, height := 32, color := "w" },
          collider := none, health := none } ∧
      0 ≤ t'.position.x ∧ t'.position.x + 32 ≤ config.canvasWidth ∧
      0 ≤ t'.position.y ∧ t'.position.y + 32 ≤ config.canvasHeight := by
  obtain ⟨t', p', heq, hx0, hx1, hy0, hy1, -⟩ :=
    C7_amended_boundary_containment
      { id := "w7", active := true,
        transform := some { position := ⟨700, -50⟩, rotation := 0,
                            scale := ⟨1, 1⟩ },
        physics := some { velocity := ⟨0, 0⟩, acceleration := ⟨0, 0⟩,
                          mass := 1, friction := 1 },
        sprite := some { width := 32, height := 32, color := "w" },
        collider := none, health := none }
      { position := ⟨700, -50⟩, rotation := 0, scale := ⟨1, 1⟩ }
      { velocity := ⟨0, 0⟩, acceleration := ⟨0, 0⟩, mass := 1, friction := 1 }
      { width := 32, height := 32, color := "w" }
      0 rfl rfl rfl rfl rfl (by norm_num)
  exact ⟨t', p', heq, hx0, hx1, hy0, hy1⟩

/-- Componentwise equality of 2D vectors. -/
theorem vec2_ext {α : Type} (v w : Vec2 α) (hx : v.x = w.x) (hy : v.y = w.y) :
    v = w := by
  cases v
  cases w
  simp_all

/-- C8: every hostile (id not "player", physics present, sprite colour
equal to config.enemy.color) with transform and physics gets velocity
= direction(position, playerPosition) * config.enemy.speed, where the
direction is the unit vector toward the player when the positions
differ (norm exactly 1, components delta/length) and the zero vector
when they coincide (so the velocity is (0,0) and no division by zero
occurs). -/
theorem C8_pursuit_velocity (playerPos : Vec2 ℝ) (e : Entity ℝ)
    (t : TransformComponent ℝ) (p : PhysicsComponent ℝ)
    (hid : ¬ e.id = "player") (ht : e.transform = some t)
    (hp : e.physics = some p)
    (hcolr : (e.sprite.map SpriteComponent.color) = some config.enemyColor) :
    ∃ p', MainScene.updateEnemy playerPos e = { e with physics := some p' } ∧
      p'.velocity =
        ⟨(PhysicsSystem.Integrator.direction t.position playerPos).x *
            config.enemySpeed,
         (PhysicsSystem.Integrator.direction t.position playerPos).y *
            config.enemySpeed⟩ ∧
      (t.position = playerPos →
        PhysicsSystem.Integrator.direction t.position playerPos = ⟨0, 0⟩) ∧
      (¬ t.position = playerPos →
        Real.sqrt ((PhysicsSystem.Integrator.direction t.position playerPos).x ^ 2 +
          (PhysicsSystem.Integrator.direction t.position playerPos).y ^ 2) = 1 ∧
        (PhysicsSystem.Integrator.direction t.position playerPos).x =
          (playerPos.x - t.position.x) /
            Real.sqrt ((playerPos.x - t.position.x) * (playerPos.x - t.position.x) +
              (playerPos.y - t.position.y) * (playerPos.y - t.position.y)) ∧
        (PhysicsSystem.Integrator.direction t.position playerPos).y =
          (playerPos.y - t.position.y) /
            Real.sqrt ((playerPos.x - t.position.x) * (playerPos.x - t.position.x) +
              (playerPos.y - t.position.y) * (playerPos.y - t.position.y))) := by
  obtain ⟨eid, eact, etr, eph, esp, ecl, ehl⟩ := e
  simp only at hid ht hp hcolr
  subst ht hp
  have hred : MainScene.updateEnemy playerPos
      ⟨eid, eact, some t, some p, esp, ecl, ehl⟩ =
      { id := eid, active := eact, transform := some t,
        physics := some { p with velocity :=
          ⟨(PhysicsSystem.Integrator.direction t.position playerPos).x *
              config.enemySpeed,
           (PhysicsSystem.Integrator.direction t.position playerPos).y *
              config.enemySpeed⟩ },
        sprite := esp, collider := ecl, health := ehl } := by
    simp only [MainScene.updateEnemy]
    rw [if_pos ⟨hid, rfl, hcolr⟩]
  refine ⟨_, hred, rfl, ?_, ?_⟩
  · intro hpos
    simp [PhysicsSystem.Integrator.direction, hpos]
  · intro hpos
    set dx := playerPos.x - t.position.x with hdx
    set dy := playerPos.y - t.position.y with hdy
    have hne : ¬ (dx = 0 ∧ dy = 0) := by
      rintro ⟨h1, h2⟩
      refine hpos (vec2_ext _ _ ?_ ?_)
      · rw [hdx] at h1; linarith
      · rw [hdy] at h2; linarith
    have hSpos : 0 < dx * dx + dy * dy := by
      rcases not_and_or.mp hne with h | h
      · have := mul_self_nonneg dy
        have h2 : 0 < dx * dx := mul_self_pos.mpr h
        linarith
      · have := mul_self_nonneg dx
        have h2 : 0 < dy * dy := mul_self_pos.mpr h
        linarith
    have hlen : 0 < Real.sqrt (dx * dx + dy * dy) := Real.sqrt_pos.mpr hSpos
    have hdir : PhysicsSystem.Integrator.direction t.position playerPos =
        ⟨dx / Real.sqrt (dx * dx + dy * dy),
         dy / Real.sqrt (dx * dx + dy * dy)⟩ := by
      simp only [PhysicsSystem.Integrator.direction]
      rw [if_neg (ne_of_gt hlen)]
    refine ⟨?_, by rw [hdir], by rw [hdir]⟩
    rw [hdir]
    have hsq : Real.sqrt (dx * dx + dy * dy) ^ 2 = dx * dx + dy * dy :=
      Real.sq_sqrt (le_of_lt hSpos)
    have harg : (dx / Real.sqrt (dx * dx + dy * dy)) ^ 2 +
        (dy / Real.sqrt (dx * dx + dy * dy)) ^ 2 =
        (dx * dx + dy * dy) / Real.sqrt (dx * dx + dy * dy) ^ 2 := by
      ring
    simp only
    rw [harg, hsq, div_self (ne_of_gt hSpos), Real.sqrt_one]

/-- Test fixture: hostiles for the pursuit witness, one at the origin
and one exactly at the player's position (10, 0). -/
def c8Hostile : Entity ℝ :=
  { id := "h1", active := true,
    transform := some { position := ⟨0, 0⟩, rotation := 0, scale := ⟨1, 1⟩ },
    physics := some { velocity := ⟨0, 0⟩, acceleration := ⟨0, 0⟩,
                      mass := 1, friction := 1 },
    sprite := some { width := 32, height := 32, color := config.enemyColor },
    collider := none, health := none }

def c8HostileAt : Entity ℝ :=
  { id := "h2", active := true,
    transform := some { position := ⟨10, 0⟩, rotation := 0, scale := ⟨1, 1⟩ },
    physics := some { velocity := ⟨0, 0⟩, acceleration := ⟨0, 0⟩,
                      mass := 1, friction := 1 },
    sprite := some { width := 32, height := 32, color := config.enemyColor },
    collider := none, health := none }

/-- Witness for C8: a hostile at (0,0) pursuing a player at (10,0)
gets velocity exactly (enemySpeed, 0) = (100, 0), and a hostile
standing exactly on the player gets velocity (0,0). -/
theorem C8_pursuit_witness :
    (∃ p', MainScene.updateEnemy ⟨10, 0⟩ c8Hostile =
        { c8Hostile with physics := some p' } ∧
      p'.velocity = ⟨100, 0⟩) ∧
    (∃ q', MainScene.updateEnemy ⟨10, 0⟩ c8HostileAt =
        { c8HostileAt with physics := some q' } ∧
      q'.velocity = ⟨0, 0⟩) := by
  constructor
  · obtain ⟨p', h1, h2, -, h4⟩ :=
      C8_pursuit_velocity ⟨10, 0⟩ c8Hostile
        { position := ⟨0, 0⟩, rotation := 0, scale := ⟨1, 1⟩ }
        { velocity := ⟨0, 0⟩, acceleration := ⟨0, 0⟩, mass := 1, friction := 1 }
        (by simp [c8Hostile]) rfl rfl rfl
    obtain ⟨-, hx, hy⟩ := h4 (by simp)
    have hs : Real.sqrt (((10:ℝ) - 0) * (10 - 0) + (0 - 0) * (0 - 0)) = 10 := by
      rw [show ((10:ℝ) - 0) * (10 - 0) + (0 - 0) * (0 - 0) = 10 ^ 2 by norm_num]
      exact Real.sqrt_sq (by norm_num)
    simp only at hx hy
    rw [hs] at hx hy
    refine ⟨p', h1, ?_⟩
    rw [h2]
    simp only [hx, hy]
    norm_num [config.enemySpeed]
  · obtain ⟨q', h1, h2, h3, -⟩ :=
      C8_pursuit_velocity ⟨10, 0⟩ c8HostileAt
        { position := ⟨10, 0⟩, rotation := 0, scale := ⟨1, 1⟩ }
        { velocity := ⟨0, 0⟩, acceleration := ⟨0, 0⟩, mass := 1, friction := 1 }
        (by simp [c8HostileAt]) rfl rfl rfl
    have hdir := h3 rfl
    refine ⟨q', h1, ?_⟩
    rw [h2]
    simp only at hdir
    rw [hdir]
    norm_num
